import Mathlib

/-!
Shallow embedding of the claude-code-login OAuth/PKCE tool (src/index.ts).

The program is a single-shot CLI with two phases: building an authorization
URL (with a PKCE verifier/challenge pair and a persisted pending-state
record) and exchanging an authorization code for tokens.  All effectful
platform primitives are made explicit parameters of the embedded
functions:

- the two crypto random buffers are byte-list parameters;
- the SHA-256 digest primitive (node createHash) is an abstract function
  parameter, since the claims about it are relational;
- each Date.now() invocation is a separate millisecond reading parameter;
- the state-file read/parse outcome, the fetch outcome and the unlink
  outcome are explicit outcome parameters;
- console output and the issued network requests are returned as data so
  that theorems can talk about observable effects.

JS numbers that hold epoch times and expiry intervals are modelled as Int
(all values reached by the program are integral).
-/

namespace ClaudeLogin

/-! Constants from src/index.ts lines 7-12. -/

def OAUTH_AUTHORIZE_URL : String := "https://claude.ai/oauth/authorize"

def OAUTH_TOKEN_URL : String := "https://console.anthropic.com/v1/oauth/token"

def CLIENT_ID : String := "9d1c250a-e61b-44d9-88ed-5944d1962f5e"

def REDIRECT_URI : String := "https://console.anthropic.com/oauth/code/callback"

/-- Math.floor(ms / 1000): JS division of the millisecond clock reading by
1000 followed by Math.floor, i.e. floor division on integers. -/
def floorSec (ms : Int) : Int := Int.fdiv ms 1000

/-- StateData record (src/index.ts lines 15-20): the pending-authorization
record persisted in claude_oauth_state.json. -/
structure StateData where
  state : String
  code_verifier : String
  timestamp : Int
  expires_at : Int
deriving Repr, DecidableEq

/-- Result of saveState: the record actually persisted (none when the
write failed) and whether the non-fatal warning was emitted. -/
structure SaveResult where
  written : Option StateData
  warned : Bool
deriving Repr, DecidableEq

/-- saveState (src/index.ts lines 44-57).  The source evaluates
Math.floor(Date.now() / 1000) twice, once for the timestamp field and once
for the expires_at field; the two clock readings are therefore separate
parameters nowMs1 and nowMs2.  writeOk tells whether the writeFile call
succeeds; on failure the error is caught and only a warning is printed. -/
def saveState (state codeVerifier : String) (nowMs1 nowMs2 : Int)
    (writeOk : Bool) : SaveResult :=
  let stateData : StateData :=
    { state := state
      code_verifier := codeVerifier
      timestamp := floorSec nowMs1
      expires_at := floorSec nowMs2 + 600 }
  if writeOk then { written := some stateData, warned := false }
  else { written := none, warned := true }

/-! Byte-string encodings used by the URL builder.  Buffer.toString with
base64url produces the unpadded URL-safe base64 alphabet; toString with
hex produces lowercase hex.  Bytes are octets; values are reduced mod 256
so the encoders are total on Nat. -/

def base64urlChars : List Char :=
  "ABCDEFGHIJKLMNOPQRSTUVWXYZabcdefghijklmnopqrstuvwxyz0123456789-_".toList

def b64Char (n : Nat) : Char := base64urlChars.getD (n % 64) 'A'

/-- Unpadded base64url encoding of a byte list: groups of three bytes map
to four alphabet characters; a trailing group of one or two bytes maps to
two or three characters and no padding is appended. -/
def base64urlEncodeList : List Nat → List Char
  | [] => []
  | [b0] =>
    let c0 := b0 % 256
    [b64Char (c0 / 4), b64Char (c0 % 4 * 16)]
  | [b0, b1] =>
    let c0 := b0 % 256
    let c1 := b1 % 256
    [b64Char (c0 / 4), b64Char (c0 % 4 * 16 + c1 / 16), b64Char (c1 % 16 * 4)]
  | b0 :: b1 :: b2 :: rest =>
    let c0 := b0 % 256
    let c1 := b1 % 256
    let c2 := b2 % 256
    b64Char (c0 / 4) :: b64Char (c0 % 4 * 16 + c1 / 16) ::
      b64Char (c1 % 16 * 4 + c2 / 64) :: b64Char (c2 % 64) ::
      base64urlEncodeList rest

def base64url (bytes : List Nat) : String := String.mk (base64urlEncodeList bytes)

def hexChars : List Char := "0123456789abcdef".toList

def hexChar (n : Nat) : Char := hexChars.getD (n % 16) '0'

/-- Lowercase hex encoding of a byte list, two digits per byte. -/
def hexEncodeList : List Nat → List Char
  | [] => []
  | b :: rest => hexChar (b % 256 / 16) :: hexChar (b % 16) :: hexEncodeList rest

def hexEncode (bytes : List Nat) : String := String.mk (hexEncodeList bytes)

/-! URLSearchParams.toString(): the application/x-www-form-urlencoded
serializer.  ASCII alphanumerics and * - . _ are kept, space becomes +,
every other character is percent-encoded with uppercase hex digits.  The
program only ever serializes ASCII strings, so the encoder is modelled on
code points below 256. -/

def isUrlencodedSafe (c : Char) : Bool :=
  (65 ≤ c.toNat && c.toNat ≤ 90) || (97 ≤ c.toNat && c.toNat ≤ 122) ||
    (48 ≤ c.toNat && c.toNat ≤ 57) || c == '*' || c == '-' || c == '.' || c == '_'

def hexDigitUpper (n : Nat) : Char := "0123456789ABCDEF".toList.getD (n % 16) '0'

def percentEncodeChar (c : Char) : List Char :=
  if c == ' ' then ['+']
  else if isUrlencodedSafe c then [c]
  else
    let n := c.toNat % 256
    ['%', hexDigitUpper (n / 16), hexDigitUpper (n % 16)]

def urlencode (s : String) : String := String.mk (s.toList.flatMap percentEncodeChar)

def serializePair (p : String × String) : String :=
  urlencode p.1 ++ "=" ++ urlencode p.2

def serializeParams (ps : List (String × String)) : String :=
  String.intercalate "&" (ps.map serializePair)

/-- Observable outcome of generateLoginUrl: the returned URL, the
URLSearchParams key/value pairs it was serialized from, the console.log
lines, and the saveState outcome. -/
structure GenResult where
  url : String
  queryParams : List (String × String)
  stdoutLines : List String
  save : SaveResult
deriving Repr, DecidableEq

/-- generateLoginUrl (src/index.ts lines 62-92).  stateBytes and
verifierBytes are the two randomBytes(32) buffers; sha256Of is the
createHash-sha256 digest primitive taking the UTF-8 string fed to update
and returning the digest bytes; nowMs1/nowMs2 are the two Date.now()
readings inside saveState; writeOk is the state-file write outcome. -/
def generateLoginUrl (stateBytes verifierBytes : List Nat)
    (sha256Of : String → List Nat) (nowMs1 nowMs2 : Int) (writeOk : Bool) :
    GenResult :=
  let state := hexEncode stateBytes
  let codeVerifier := base64url verifierBytes
  let codeChallenge := base64url (sha256Of codeVerifier)
  let save := saveState state codeVerifier nowMs1 nowMs2 writeOk
  let params : List (String × String) :=
    [("code", "true"),
     ("client_id", CLIENT_ID),
     ("response_type", "code"),
     ("redirect_uri", REDIRECT_URI),
     ("scope", "org:create_api_key user:profile user:inference"),
     ("code_challenge", codeChallenge),
     ("code_challenge_method", "S256"),
     ("state", state)]
  let url := OAUTH_AUTHORIZE_URL ++ "?" ++ serializeParams params
  { url := url, queryParams := params, stdoutLines := [url], save := save }

/-! State-file loading.  The file read/parse outcome is an explicit
parameter: none models a readFile rejection (file absent or unreadable),
some none models a JSON.parse exception (unparseable content), and
some (some sd) models content that parses to a well-typed StateData
record.  The type-erased runtime view, where parsed content need not
match the StateData shape, is modelled separately below with JSValue. -/

/-- loadState (src/index.ts lines 97-104): returns the parsed record, or
null when reading or parsing throws. -/
def loadState : Option (Option StateData) → Option StateData
  | some (some sd) => some sd
  | _ => none

/-- verifyState (src/index.ts lines 109-123): false when no record loads,
false when the current time (floored to seconds) is strictly greater than
expires_at, true otherwise. -/
def verifyState (fileOutcome : Option (Option StateData)) (nowMs : Int) : Bool :=
  match loadState fileOutcome with
  | none => false
  | some stateData =>
    if floorSec nowMs > stateData.expires_at then false else true

/-- TokenResponse (src/index.ts lines 22-27): the provider token payload.
jsonBody below is some of this record when response.json() succeeds and
yields a well-typed payload. -/
structure TokenResponse where
  access_token : String
  refresh_token : String
  expires_in : Int
  scope : Option String
deriving Repr, DecidableEq

/-- ClaudeOAuthCredentials (src/index.ts lines 29-35). -/
structure ClaudeOAuthCredentials where
  accessToken : String
  refreshToken : String
  expiresAt : Int
  scopes : List String
  isMax : Bool
deriving Repr, DecidableEq

/-- The JSON body of the token-endpoint POST (src/index.ts lines 139-146). -/
structure TokenRequestParams where
  grant_type : String
  client_id : String
  code : String
  redirect_uri : String
  code_verifier : String
  state : String
deriving Repr, DecidableEq

/-- A fetch response: HTTP status, the text body, and the result of
parsing the body as JSON (none when response.json() would throw or the
payload is not a well-typed token response). -/
structure HttpResponse where
  status : Nat
  bodyText : String
  jsonBody : Option TokenResponse
deriving Repr, DecidableEq

/-- response.ok: status in the inclusive range 200-299. -/
def HttpResponse.ok (r : HttpResponse) : Bool :=
  decide (200 ≤ r.status ∧ r.status < 300)

/-- Outcome of the single fetch call: either the promise rejects with a
transport-level error, or an HTTP response arrives. -/
inductive FetchOutcome where
  | networkError (message : String)
  | response (r : HttpResponse)
deriving Repr, DecidableEq

/-- Observable outcome of exchangeCode: the token-endpoint request bodies
actually issued (in order) and the returned value. -/
structure ExchangeResult where
  requests : List TokenRequestParams
  result : Option ClaudeOAuthCredentials
deriving Repr, DecidableEq

/-- Splitting a character list on a separator character: the JS
String.prototype.split semantics for a one-character separator.  The
result is always nonempty; the empty input gives one empty segment. -/
def splitChar (sep : Char) : List Char → List (List Char)
  | [] => [[]]
  | c :: rest =>
    let r := splitChar sep rest
    if c == sep then [] :: r
    else
      match r with
      | [] => [[c]]
      | g :: gs => (c :: g) :: gs

/-- JS String.prototype.split restricted to the single-character
separators this program uses.  Defined by structural recursion so that
concrete instances reduce inside the kernel. -/
def jsSplit (s : String) (sep : Char) : List String :=
  (splitChar sep s.toList).map String.mk

/-- The code cleanup on src/index.ts line 130:
authorizationCode.split('#')[0]?.split('&')[0] ?? authorizationCode.
JS split with a nonempty separator always yields a nonempty array, so
each [0] index is defined; headD with the original string models the
optional-chaining / nullish-coalescing fallback. -/
def cleanCode (authorizationCode : String) : String :=
  ((jsSplit ((jsSplit authorizationCode '#').headD authorizationCode)
      '&').headD authorizationCode)

/-- exchangeCode (src/index.ts lines 128-181).  fileOutcome is the state
file read/parse outcome fed to loadState; nowMs is the Date.now() reading
on line 173; fetchOutcome is the outcome of the one fetch call.  The
data.scope condition on line 174 is a JS truthiness test, so an empty
scope string also selects the default scope list. -/
def exchangeCode (authorizationCode : String)
    (fileOutcome : Option (Option StateData)) (nowMs : Int)
    (fetchOutcome : FetchOutcome) : ExchangeResult :=
  let cleanedCode := cleanCode authorizationCode
  match loadState fileOutcome with
  | none => { requests := [], result := none }
  | some stateData =>
    let params : TokenRequestParams :=
      { grant_type := "authorization_code"
        client_id := CLIENT_ID
        code := cleanedCode
        redirect_uri := REDIRECT_URI
        code_verifier := stateData.code_verifier
        state := stateData.state }
    match fetchOutcome with
    | .networkError _ => { requests := [params], result := none }
    | .response r =>
      if !r.ok then { requests := [params], result := none }
      else
        match r.jsonBody with
        | none => { requests := [params], result := none }
        | some data =>
          { requests := [params]
            result := some
              { accessToken := data.access_token
                refreshToken := data.refresh_token
                expiresAt := (floorSec nowMs + data.expires_in) * 1000
                scopes :=
                  match data.scope with
                  | some s =>
                    if s != "" then jsSplit s ' '
                    else ["user:inference", "user:profile"]
                  | none => ["user:inference", "user:profile"]
                isMax := true } }

/-- Observable outcome of cleanupState: whether the warning was printed
and its text. -/
structure CleanupResult where
  warned : Bool
  warnings : List String
deriving Repr, DecidableEq

/-- cleanupState (src/index.ts lines 203-209).  unlinkResult is the
outcome of the unlink call: none when it succeeds, some errMsg when it
rejects; every rejection is caught and turned into a warning. -/
def cleanupState (unlinkResult : Option String) : CleanupResult :=
  match unlinkResult with
  | none => { warned := false, warnings := [] }
  | some msg =>
    { warned := true
      warnings := ["Warning: Could not clean up state file: " ++ msg] }

/-- Node fs.promises.unlink semantics: unlinking a nonexistent path
rejects with ENOENT; unlinking without permission rejects with EACCES;
otherwise it succeeds.  This grounds what the unlink outcome is when the
pending-state record is already absent. -/
def unlinkModel (fileExists deletionAllowed : Bool) : Option String :=
  if !fileExists then some "ENOENT: no such file or directory"
  else if !deletionAllowed then some "EACCES: permission denied"
  else none

/-! Type-erased runtime model.  TypeScript types are erased at runtime:
JSON.parse returns an arbitrary JSON value and loadState hands it through
unvalidated.  JSValue models the runtime values JSON.parse can produce
plus undefined (the result of accessing an absent property).  JSON
numbers are modelled as integers, matching every value this program
handles. -/

inductive JSValue where
  | undefinedV
  | null
  | boolean (b : Bool)
  | num (n : Int)
  | str (s : String)
  | arr (elems : List JSValue)
  | obj (fields : List (String × JSValue))

/-- JS truthiness: undefined, null, false, 0 and the empty string are
falsy; every object and array is truthy. -/
def JSValue.truthy : JSValue → Bool
  | .undefinedV => false
  | .null => false
  | .boolean b => b
  | .num n => n != 0
  | .str s => s != ""
  | .arr _ => true
  | .obj _ => true

/-- Property access v.key: object lookup, undefined when the key is
absent; access on a primitive yields undefined via boxing.  Access on
null or undefined would throw in JS, but every use below is guarded by a
truthiness check, so that case is never reached; it is mapped to
undefined to keep the function total. -/
def JSValue.get (v : JSValue) (key : String) : JSValue :=
  match v with
  | .obj fields =>
    match fields.lookup key with
    | some w => w
    | none => .undefinedV
  | _ => .undefinedV

/-- JS Number(string) restricted to integer literals: surrounding spaces
are trimmed, the empty string is 0, an optional sign followed by decimal
digits is the integer value, and everything else is NaN (none).
Fractional, exponent and hex literals are not modelled; the state file
values this program compares are integers or absent. -/
def jsStringToNumber (s : String) : Option Int :=
  let t := s.trim
  if t == "" then some 0
  else
    let digits : List Char → Option Nat := fun cs =>
      if cs.isEmpty then none
      else
        cs.foldl
          (fun acc c =>
            match acc with
            | none => none
            | some n => if c.isDigit then some (n * 10 + (c.toNat - 48)) else none)
          (some 0)
    match t.toList with
    | '-' :: rest => (digits rest).map (fun n => -(n : Int))
    | '+' :: rest => (digits rest).map (fun n => (n : Int))
    | cs => (digits cs).map (fun n => (n : Int))

/-- JS ToNumber on the values the state file can hold: undefined is NaN
(none), null is 0, booleans are 0 or 1, strings go through Number();
array/object coercion via ToPrimitive is not modelled and is treated as
NaN (no claim touches it). -/
def jsToNumber : JSValue → Option Int
  | .undefinedV => none
  | .null => some 0
  | .boolean b => some (if b then 1 else 0)
  | .num n => some n
  | .str s => jsStringToNumber s
  | .arr _ => none
  | .obj _ => none

/-- The JS comparison a > v with a number on the left: both sides go
through ToNumber and any NaN makes the comparison false. -/
def jsGtNum (a : Int) (v : JSValue) : Bool :=
  match jsToNumber v with
  | none => false
  | some b => decide (a > b)

/-- loadState at the runtime level: returns JSON.parse of the file
content, or null when reading or parsing throws.  No schema validation
is performed on the parsed value. -/
def loadStateJS : Option (Option JSValue) → JSValue
  | some (some v) => v
  | _ => .null

/-- verifyState at the runtime level: the !stateData guard is JS
truthiness and the expiry comparison is the JS greater-than against the
(possibly absent) expires_at property. -/
def verifyStateJS (fileOutcome : Option (Option JSValue)) (nowMs : Int) : Bool :=
  let stateData := loadStateJS fileOutcome
  if !stateData.truthy then false
  else if jsGtNum (floorSec nowMs) (stateData.get "expires_at") then false
  else true

/-! Helper lemmas. -/

lemma b64Char_mem (n : Nat) : b64Char n ∈ base64urlChars := by
  have h : ∀ m, m < 64 → base64urlChars.getD m 'A' ∈ base64urlChars := by decide
  exact h (n % 64) (Nat.mod_lt _ (by norm_num))

lemma percentEncodeChar_id_of_mem : ∀ c ∈ base64urlChars, percentEncodeChar c = [c] := by
  decide

lemma base64urlEncodeList_mem :
    ∀ (bytes : List Nat), ∀ c ∈ base64urlEncodeList bytes, c ∈ base64urlChars
  | [] => by simp [base64urlEncodeList]
  | [b0] => by
    intro c hc
    simp only [base64urlEncodeList, List.mem_cons, List.not_mem_nil, or_false] at hc
    rcases hc with h | h <;> exact h ▸ b64Char_mem _
  | [b0, b1] => by
    intro c hc
    simp only [base64urlEncodeList, List.mem_cons, List.not_mem_nil, or_false] at hc
    rcases hc with h | h | h <;> exact h ▸ b64Char_mem _
  | b0 :: b1 :: b2 :: rest => by
    intro c hc
    simp only [base64urlEncodeList, List.mem_cons] at hc
    rcases hc with h | h | h | h | h
    · exact h ▸ b64Char_mem _
    · exact h ▸ b64Char_mem _
    · exact h ▸ b64Char_mem _
    · exact h ▸ b64Char_mem _
    · exact base64urlEncodeList_mem rest c h

lemma flatMap_percentEncodeChar_id (cs : List Char)
    (h : ∀ c ∈ cs, percentEncodeChar c = [c]) :
    cs.flatMap percentEncodeChar = cs := by
  induction cs with
  | nil => rfl
  | cons c cs ih =>
    rw [List.flatMap_cons, h c (List.mem_cons_self c cs),
      ih (fun x hx => h x (List.mem_cons_of_mem c hx))]
    rfl

lemma urlencode_base64url (bytes : List Nat) :
    urlencode (base64url bytes) = base64url bytes := by
  show String.mk ((base64urlEncodeList bytes).flatMap percentEncodeChar)
      = String.mk (base64urlEncodeList bytes)
  rw [flatMap_percentEncodeChar_id _
    (fun c hc => percentEncodeChar_id_of_mem c (base64urlEncodeList_mem bytes c hc))]

/-! Claim theorems. -/

/-- C1: in every invocation of generateLoginUrl, the code_challenge query
parameter placed in the authorization URL equals the unpadded URL-safe
base64 encoding of the SHA-256 digest of the codeVerifier generated in
that same invocation; moreover the URL is exactly the authorize endpoint
followed by the urlencoded serialization of those query parameters, and
urlencoding leaves the challenge unchanged, so it appears verbatim in the
URL. -/
theorem claim1_code_challenge_pkce (stateBytes verifierBytes : List Nat)
    (sha256Of : String → List Nat) (nowMs1 nowMs2 : Int) (writeOk : Bool) :
    List.lookup "code_challenge"
        (generateLoginUrl stateBytes verifierBytes sha256Of nowMs1 nowMs2 writeOk).queryParams
      = some (base64url (sha256Of (base64url verifierBytes)))
    ∧ (generateLoginUrl stateBytes verifierBytes sha256Of nowMs1 nowMs2 writeOk).url
      = OAUTH_AUTHORIZE_URL ++ "?" ++
          serializeParams
            (generateLoginUrl stateBytes verifierBytes sha256Of nowMs1 nowMs2 writeOk).queryParams
    ∧ urlencode (base64url (sha256Of (base64url verifierBytes)))
      = base64url (sha256Of (base64url verifierBytes)) :=
  ⟨rfl, rfl, urlencode_base64url _⟩

/-- C8: when persisting the pending-state record fails, generateLoginUrl
still constructs the same authorization URL as in the successful-save
case, still emits it on standard output, and the failure surfaces only as
a warning with no record written. -/
theorem claim8_url_despite_save_failure (stateBytes verifierBytes : List Nat)
    (sha256Of : String → List Nat) (nowMs1 nowMs2 : Int) :
    (generateLoginUrl stateBytes verifierBytes sha256Of nowMs1 nowMs2 false).url
      = (generateLoginUrl stateBytes verifierBytes sha256Of nowMs1 nowMs2 true).url
    ∧ (generateLoginUrl stateBytes verifierBytes sha256Of nowMs1 nowMs2 false).stdoutLines
      = [(generateLoginUrl stateBytes verifierBytes sha256Of nowMs1 nowMs2 false).url]
    ∧ (generateLoginUrl stateBytes verifierBytes sha256Of nowMs1 nowMs2 false).save.warned
      = true
    ∧ (generateLoginUrl stateBytes verifierBytes sha256Of nowMs1 nowMs2 false).save.written
      = none :=
  ⟨rfl, rfl, rfl, rfl⟩

/-- With a loaded state record, exchangeCode issues exactly one token
request, whose body is fixed by the sanitized code and the record, in
every fetch outcome. -/
lemma exchangeCode_requests_some (code : String) (sd : StateData) (nowMs : Int)
    (f : FetchOutcome) :
    (exchangeCode code (some (some sd)) nowMs f).requests
      = [{ grant_type := "authorization_code"
           client_id := CLIENT_ID
           code := cleanCode code
           redirect_uri := REDIRECT_URI
           code_verifier := sd.code_verifier
           state := sd.state }] := by
  cases f with
  | networkError m => rfl
  | response r =>
    cases hok : r.ok <;> cases hj : r.jsonBody <;>
      simp [exchangeCode, loadState, hok, hj]

/-- Sample pending-state record used by concrete witnesses. -/
def sdSample : StateData :=
  { state := "st", code_verifier := "cv", timestamp := 0, expires_at := 600 }

/-- Token payload whose scope field is present but empty. -/
def dataEmptyScope : TokenResponse :=
  { access_token := "A", refresh_token := "B", expires_in := 3600, scope := some "" }

/-- A 2xx response carrying the empty-scope payload. -/
def respEmptyScope : HttpResponse :=
  { status := 200, bodyText := "", jsonBody := some dataEmptyScope }

/-- Token payload with a two-scope grant. -/
def dataSample : TokenResponse :=
  { access_token := "A", refresh_token := "B", expires_in := 7200, scope := some "a b" }

/-- A 2xx response carrying the two-scope payload. -/
def respSample : HttpResponse :=
  { status := 200, bodyText := "ok", jsonBody := some dataSample }

/-- A 400 response used by witnesses for the failure paths. -/
def respBad : HttpResponse :=
  { status := 400, bodyText := "bad", jsonBody := none }

/-- C2: when no pending-state record is loadable (file absent or
unparseable), exchangeCode returns absent and issues no token-endpoint
request. -/
theorem claim2_no_state_no_request (code : String)
    (fileOutcome : Option (Option StateData)) (nowMs : Int) (f : FetchOutcome)
    (h : loadState fileOutcome = none) :
    (exchangeCode code fileOutcome nowMs f).result = none
    ∧ (exchangeCode code fileOutcome nowMs f).requests = [] := by
  constructor <;> simp [exchangeCode, h]

theorem claim2_witness :
    loadState none = none
    ∧ ((exchangeCode "c" none 0 (.networkError "boom")).result = none
      ∧ (exchangeCode "c" none 0 (.networkError "boom")).requests = []) :=
  ⟨rfl, claim2_no_state_no_request "c" none 0 (.networkError "boom") rfl⟩

/-- C3 as stated is refuted by a 2xx parseable response whose scope field
is present but equal to the empty string: the code selects the default
scope list (the scope condition is a JS truthiness test), while splitting
the empty scope string on spaces yields a one-element list containing the
empty string. -/
theorem claim3_counterexample :
    dataEmptyScope.scope = some ""
    ∧ ((exchangeCode "c" (some (some sdSample)) 0 (.response respEmptyScope)).result.map
        ClaudeOAuthCredentials.scopes)
      = some ["user:inference", "user:profile"]
    ∧ jsSplit "" ' ' = [""]
    ∧ (some [""] : Option (List String)) ≠ some ["user:inference", "user:profile"] :=
  ⟨rfl, rfl, rfl, by decide⟩

/-- C3 amended: for every 2xx response whose body parses to a token
payload, exchangeCode returns a credential whose expiresAt is
(current epoch seconds + expires_in) * 1000, whose isMax is true, whose
token fields are copied through, and whose scopes are the scope string
split on single spaces when scope is present and nonempty, and the fixed
default pair when scope is absent or empty. -/
theorem claim3_success_mapping (code : String) (sd : StateData) (nowMs : Int)
    (resp : HttpResponse) (data : TokenResponse)
    (hok : resp.ok = true) (hjson : resp.jsonBody = some data) :
    (exchangeCode code (some (some sd)) nowMs (.response resp)).result.map
        ClaudeOAuthCredentials.expiresAt
      = some ((floorSec nowMs + data.expires_in) * 1000)
    ∧ (exchangeCode code (some (some sd)) nowMs (.response resp)).result.map
        ClaudeOAuthCredentials.isMax = some true
    ∧ (exchangeCode code (some (some sd)) nowMs (.response resp)).result.map
        ClaudeOAuthCredentials.accessToken = some data.access_token
    ∧ (exchangeCode code (some (some sd)) nowMs (.response resp)).result.map
        ClaudeOAuthCredentials.refreshToken = some data.refresh_token
    ∧ (∀ s, data.scope = some s → s ≠ "" →
        (exchangeCode code (some (some sd)) nowMs (.response resp)).result.map
          ClaudeOAuthCredentials.scopes = some (jsSplit s ' '))
    ∧ ((data.scope = none ∨ data.scope = some "") →
        (exchangeCode code (some (some sd)) nowMs (.response resp)).result.map
          ClaudeOAuthCredentials.scopes = some ["user:inference", "user:profile"]) := by
  refine ⟨?_, ?_, ?_, ?_, ?_, ?_⟩
  · simp [exchangeCode, loadState, hok, hjson]
  · simp [exchangeCode, loadState, hok, hjson]
  · simp [exchangeCode, loadState, hok, hjson]
  · simp [exchangeCode, loadState, hok, hjson]
  · intro s hs hne
    simp [exchangeCode, loadState, hok, hjson, hs, hne]
  · intro hsc
    rcases hsc with hsc | hsc <;> simp [exchangeCode, loadState, hok, hjson, hsc]

theorem claim3_witness :
    respSample.ok = true
    ∧ respSample.jsonBody = some dataSample
    ∧ (exchangeCode "c" (some (some sdSample)) 5000 (.response respSample)).result.map
        ClaudeOAuthCredentials.expiresAt = some ((floorSec 5000 + 7200) * 1000)
    ∧ (exchangeCode "c" (some (some sdSample)) 5000 (.response respSample)).result.map
        ClaudeOAuthCredentials.scopes = some ["a", "b"] := by
  have h := claim3_success_mapping "c" sdSample 5000 respSample dataSample (by rfl) (by rfl)
  have h2 := h.2.2.2.2.1 "a b" (by rfl) (by decide)
  exact ⟨rfl, rfl, h.1, h2⟩

/-- C6: with a loaded state record, a transport-level fetch failure and a
non-success HTTP status each make exchangeCode return absent after
exactly one request attempt. -/
theorem claim6_single_attempt (code : String) (sd : StateData) (nowMs : Int) :
    (∀ msg,
      (exchangeCode code (some (some sd)) nowMs (.networkError msg)).result = none
      ∧ (exchangeCode code (some (some sd)) nowMs (.networkError msg)).requests.length = 1)
    ∧ (∀ resp : HttpResponse, resp.ok = false →
      (exchangeCode code (some (some sd)) nowMs (.response resp)).result = none
      ∧ (exchangeCode code (some (some sd)) nowMs (.response resp)).requests.length = 1) := by
  constructor
  · intro msg
    exact ⟨rfl, by rw [exchangeCode_requests_some]; rfl⟩
  · intro resp hok
    constructor
    · simp [exchangeCode, loadState, hok]
    · rw [exchangeCode_requests_some]
      rfl

theorem claim6_witness :
    respBad.ok = false
    ∧ ((exchangeCode "c" (some (some sdSample)) 0 (.networkError "down")).result = none
      ∧ (exchangeCode "c" (some (some sdSample)) 0 (.networkError "down")).requests.length = 1)
    ∧ ((exchangeCode "c" (some (some sdSample)) 0 (.response respBad)).result = none
      ∧ (exchangeCode "c" (some (some sdSample)) 0 (.response respBad)).requests.length = 1) :=
  ⟨rfl, (claim6_single_attempt "c" sdSample 0).1 "down",
    (claim6_single_attempt "c" sdSample 0).2 respBad (by rfl)⟩

/-- C7: for every raw authorization code, the code field of the one token
request body equals the first segment of the raw string split on the hash
sign, itself split on the ampersand taking the first segment; in
particular the documented concrete input maps to the bare code. -/
theorem claim7_code_cleaning (raw : String) (sd : StateData) (nowMs : Int)
    (f : FetchOutcome) :
    (exchangeCode raw (some (some sd)) nowMs f).requests.map TokenRequestParams.code
      = [(jsSplit ((jsSplit raw '#').headD raw) '&').headD raw]
    ∧ cleanCode "actual-code#fragment&other=param" = "actual-code" := by
  constructor
  · rw [exchangeCode_requests_some]
    rfl
  · decide

/-- C4: verifyState returns false when no pending-state record is
loadable, false when the current time in epoch seconds strictly exceeds
the record's expires_at, true in every other case, and in particular true
when the current time equals expires_at exactly. -/
theorem claim4_verifyState_cases :
    (∀ (fo : Option (Option StateData)) (nowMs : Int),
      loadState fo = none → verifyState fo nowMs = false)
    ∧ (∀ (fo : Option (Option StateData)) (sd : StateData) (nowMs : Int),
      loadState fo = some sd → floorSec nowMs > sd.expires_at →
        verifyState fo nowMs = false)
    ∧ (∀ (fo : Option (Option StateData)) (sd : StateData) (nowMs : Int),
      loadState fo = some sd → ¬floorSec nowMs > sd.expires_at →
        verifyState fo nowMs = true)
    ∧ (∀ (fo : Option (Option StateData)) (sd : StateData) (nowMs : Int),
      loadState fo = some sd → floorSec nowMs = sd.expires_at →
        verifyState fo nowMs = true) := by
  refine ⟨?_, ?_, ?_, ?_⟩
  · intro fo nowMs h
    simp [verifyState, h]
  · intro fo sd nowMs h hgt
    simp [verifyState, h, hgt]
  · intro fo sd nowMs h hle
    simp [verifyState, h, hle]
  · intro fo sd nowMs h heq
    simp [verifyState, h, heq]

theorem claim4_witness :
    (loadState none = none ∧ verifyState none 0 = false)
    ∧ (loadState (some (some sdSample)) = some sdSample
      ∧ floorSec 601000 > sdSample.expires_at
      ∧ verifyState (some (some sdSample)) 601000 = false)
    ∧ (floorSec 600999 = sdSample.expires_at
      ∧ verifyState (some (some sdSample)) 600999 = true) :=
  ⟨⟨rfl, claim4_verifyState_cases.1 none 0 rfl⟩,
    ⟨rfl, by decide,
      claim4_verifyState_cases.2.1 (some (some sdSample)) sdSample 601000 rfl (by decide)⟩,
    ⟨by decide,
      claim4_verifyState_cases.2.2.2 (some (some sdSample)) sdSample 600999 rfl (by decide)⟩⟩

/-- C5 as stated is refuted because saveState reads the clock twice: when
the wall clock crosses a second boundary between the timestamp
computation and the expires_at computation, the persisted record has
expires_at - timestamp = 601, not 600.  Here the two Date.now() readings
are 999 ms and 1000 ms. -/
theorem claim5_counterexample :
    (saveState "s" "v" 999 1000 true).written.map
        (fun sd => sd.expires_at - sd.timestamp) = some 601
    ∧ (some (601 : Int) ≠ some (600 : Int)) :=
  ⟨rfl, by decide⟩

/-- C5 amended: every record written by saveState satisfies
expires_at - timestamp = 600 whenever the two Date.now() readings taken
during the call fall in the same wall-clock second; in general the
difference is 600 plus the difference of the two floored-second
readings. -/
theorem claim5_ttl (state codeVerifier : String) (nowMs1 nowMs2 : Int)
    (writeOk : Bool) (sd : StateData)
    (hw : (saveState state codeVerifier nowMs1 nowMs2 writeOk).written = some sd) :
    sd.expires_at - sd.timestamp = 600 + (floorSec nowMs2 - floorSec nowMs1)
    ∧ (floorSec nowMs1 = floorSec nowMs2 → sd.expires_at - sd.timestamp = 600) := by
  cases writeOk with
  | false => simp [saveState] at hw
  | true =>
    simp only [saveState, if_true] at hw
    cases hw
    constructor
    · simp
      ring
    · intro h
      simp [h]

theorem claim5_witness :
    (saveState "s" "v" 1000 1500 true).written
        = some { state := "s", code_verifier := "v", timestamp := 1, expires_at := 601 }
    ∧ ((601 : Int) - 1 = 600 + (floorSec 1500 - floorSec 1000)
      ∧ (floorSec 1000 = floorSec 1500 → (601 : Int) - 1 = 600)) :=
  ⟨rfl, claim5_ttl "s" "v" 1000 1500 true
    { state := "s", code_verifier := "v", timestamp := 1, expires_at := 601 } rfl⟩

/-- C9 as stated is refuted: when the pending-state record is already
absent, the unlink call rejects with ENOENT, the catch-all handler runs,
and cleanupState does emit a warning. -/
theorem claim9_counterexample :
    (cleanupState (unlinkModel false true)).warned = true :=
  rfl

/-- C9 amended: cleanupState never propagates an error and warns exactly
when the unlink call fails, for any reason — including the record already
being absent, since unlink then rejects with ENOENT; it is silent
precisely when the record existed and its deletion was permitted. -/
theorem claim9_warning_behavior :
    (∀ unlinkResult : Option String,
      (cleanupState unlinkResult).warned = unlinkResult.isSome)
    ∧ (∀ fileExists deletionAllowed : Bool,
      (cleanupState (unlinkModel fileExists deletionAllowed)).warned
        = !(fileExists && deletionAllowed)) := by
  constructor
  · intro u
    cases u <;> rfl
  · intro fe da
    cases fe <;> cases da <;> rfl

/-- C10: loaded state records are not schema-validated: any state-file
content parsing to a JSON object that lacks the expires_at field is
returned by loadState as a present (truthy) record, and verifyState then
returns true at every current time, because the JS comparison of the
current time against the undefined expires_at property is false. -/
theorem claim10_no_schema_validation (fields : List (String × JSValue)) (nowMs : Int)
    (h : fields.lookup "expires_at" = none) :
    loadStateJS (some (some (.obj fields))) = .obj fields
    ∧ (JSValue.obj fields).truthy = true
    ∧ verifyStateJS (some (some (.obj fields))) nowMs = true := by
  refine ⟨rfl, rfl, ?_⟩
  simp [verifyStateJS, loadStateJS, JSValue.truthy, JSValue.get, h, jsGtNum, jsToNumber]

theorem claim10_witness :
    List.lookup "expires_at" [("state", JSValue.str "s")] = none
    ∧ (loadStateJS (some (some (.obj [("state", JSValue.str "s")])))
          = .obj [("state", JSValue.str "s")]
      ∧ (JSValue.obj [("state", JSValue.str "s")]).truthy = true
      ∧ verifyStateJS (some (some (.obj [("state", JSValue.str "s")]))) 0 = true) :=
  ⟨rfl, claim10_no_schema_validation [("state", JSValue.str "s")] 0 rfl⟩

end ClaudeLogin
